import Mathlib

set_option maxHeartbeats 1000000

/-!
Shallow embedding of the uniproxy panel client (package pkg): the node-config
and user-list synchronization logic, the protocol dispatcher built on the
handler map, and the route/DNS extractor. Translated from the Go sources
client.go / model.go / handlers + NodeHandler files. JSON unmarshalling of
protocol payloads and the SHA-256 body hash are modelled as uninterpreted
functions collected in an environment record, since the claims under study
quantify over decode outcomes and only ever compare hash values for equality.
-/

namespace UniProxy

/-- Dynamic Go value: the runtime shape of an untyped JSON field, such as the
match field of a route or the interval settings. Constructors mirror the
dynamic types the Go code inspects: string, a list of strings, a generic
list, an int, a float64 (modelled as a rational), a bool, and nil. -/
inductive GoValue where
  | nil
  | boolv (b : Bool)
  | int (n : Int)
  | float (q : ℚ)
  | str (s : String)
  | strList (xs : List String)
  | list (vs : List GoValue)

/-- ASCII lowercase of one character, the fragment of strings.ToLower the
node-type normalization relies on. -/
def asciiLower (c : Char) : Char :=
  if 'A' ≤ c ∧ c ≤ 'Z' then Char.ofNat (c.toNat + 32) else c

/-- strings.ToLower restricted to ASCII input. -/
def goToLower (s : String) : String :=
  String.mk (s.data.map asciiLower)

/-- Character-list version of strings.HasPrefix. -/
def listHasPfx : List Char → List Char → Bool
  | [], _ => true
  | _ :: _, [] => false
  | p :: ps, c :: cs => p = c && listHasPfx ps cs

/-- strings.HasPrefix. -/
def goHasPfx (p s : String) : Bool := listHasPfx p.data s.data

/-- strings.TrimPrefix: remove the leading occurrence of p when present,
otherwise return the string unchanged. -/
def goTrimPfx (p s : String) : String :=
  if goHasPfx p s then String.mk (s.data.drop p.data.length) else s

/-- Split a character list on a separator character; the empty input yields
one empty group, matching strings.Split. -/
def splitChar (sep : Char) : List Char → List (List Char)
  | [] => [[]]
  | c :: rest =>
    let r := splitChar sep rest
    if c = sep then [] :: r
    else
      match r with
      | [] => [[c]]
      | g :: gs => (c :: g) :: gs

/-- strings.Split with separator comma, as used on a string-shaped match. -/
def goSplitComma (s : String) : List String :=
  (splitChar ',' s.data).map (fun cs => String.mk cs)

/-- Accumulator loop reading decimal digits; any non-digit character makes the
whole parse fail, as in strconv.Atoi. -/
def digitsValAux (acc : Nat) : List Char → Option Nat
  | [] => some acc
  | c :: cs =>
    if c.isDigit then digitsValAux (acc * 10 + (c.toNat - 48)) cs else none

/-- The largest int64 value. -/
def maxInt64 : Int := 9223372036854775807

/-- The smallest int64 value. -/
def minInt64 : Int := -9223372036854775808

/-- strconv.Atoi with the error discarded, as the source does: an optional
sign followed by at least one digit parses to its value, anything else
yields zero. On a range error ParseInt returns the saturated int64 bound
together with the error, and since the caller drops the error the clamped
bound is the value used. -/
def goAtoi (s : String) : Int :=
  match s.data with
  | '+' :: rest =>
    if rest.isEmpty then 0
    else match digitsValAux 0 rest with
      | some n => if maxInt64 < (n : Int) then maxInt64 else (n : Int)
      | none => 0
  | '-' :: rest =>
    if rest.isEmpty then 0
    else match digitsValAux 0 rest with
      | some n => if -(n : Int) < minInt64 then minInt64 else -(n : Int)
      | none => 0
  | cs =>
    if cs.isEmpty then 0
    else match digitsValAux 0 cs with
      | some n => if maxInt64 < (n : Int) then maxInt64 else (n : Int)
      | none => 0

/-- One second of time.Duration, in nanoseconds. -/
def second : Int := 1000000000

/-- Two-complement wraparound of an integer into the int64 range, the
behavior of Go int64 multiplication such as Duration times Second. -/
def wrap64 (n : Int) : Int := (n + 2 ^ 63) % 2 ^ 64 - 2 ^ 63

/-- Conversion of a float64 to int64 in Go: truncation toward zero. The
conversion is implementation-defined when the value is outside the int64
range; the model is meant for in-range values. -/
def ratTrunc (q : ℚ) : Int := Int.tdiv q.num q.den

/-- IntervalToTime as implemented in the model file of the handler-map tree
(part_001): a type switch accepting int, string (parsed with strconv.Atoi,
errors ignored) and float64, multiplying each by time.Second with int64
wraparound; every other shape falls through to a zero duration. This
variant is total by construction. -/
def IntervalToTime : GoValue → Int
  | GoValue.int n => wrap64 (n * second)
  | GoValue.str s => wrap64 (goAtoi s * second)
  | GoValue.float q => wrap64 (ratTrunc q * second)
  | _ => 0

/-- IntervalToTime as implemented in pkg/model.go lines 188 to 200 of the
switch-dispatch tree, which branches on reflect.TypeOf(i).Kind(). The none
result models a runtime panic: on nil input reflect.TypeOf returns a nil
reflect.Type and calling Kind on it panics, and in the default arm
reflect.ValueOf(i).Int() panics for every kind that is not a signed
integer, which covers every modelled shape that reaches it (bool, string
list, generic list); the sized signed-integer kinds the default arm would
accept are produced by no caller and are not modelled. -/
def IntervalToTimeReflect : GoValue → Option Int
  | GoValue.int n => some (wrap64 (n * second))
  | GoValue.str s => some (wrap64 (goAtoi s * second))
  | GoValue.float q => some (wrap64 (ratTrunc q * second))
  | GoValue.nil => none
  | GoValue.boolv _ => none
  | GoValue.strList _ => none
  | GoValue.list _ => none

/-- Coercion used in the generic-list arm of match normalization: the value
of a string element, and the zero value (empty string) for any other
element, exactly what the make-then-assign loop in the source produces. -/
def goValToStr : GoValue → String
  | GoValue.str s => s
  | _ => ""

/-- Normalization of a polymorphic route match value, translated from the
type-assertion chain in ProcessCommonNode: a string splits on commas, a list
of strings is used as is, a generic list is allocated at full length with
string elements copied over (non-strings keep the zero value), and any other
shape leaves the token list empty. -/
def normalizeMatch : GoValue → List String
  | GoValue.str s => goSplitComma s
  | GoValue.strList xs => xs
  | GoValue.list vs => vs.map goValToStr
  | _ => []

/- Security mode constants from the model file. -/

/-- Security constant None. -/
def None : Int := 0

/-- Security constant Tls. -/
def Tls : Int := 1

/-- Security constant Reality. -/
def Reality : Int := 2

/-- TlsSettings record from the model file. -/
structure TlsSettings where
  ServerName : String := ""
  Dest : String := ""
  ServerPort : String := ""
  ShortId : String := ""
  PrivateKey : String := ""
  Mldsa65Seed : String := ""
  Xver : Nat := 0

/-- EncSettings record from the model file. -/
structure EncSettings where
  Mode : String := ""
  Ticket : String := ""
  ServerPadding : String := ""
  PrivateKey : String := ""

/-- RealityConfig record from the model file. -/
structure RealityConfig where
  Xver : Nat := 0
  MinClientVer : String := ""
  MaxClientVer : String := ""
  MaxTimeDiff : String := ""

/-- BaseConfig: the loosely typed interval settings. -/
structure BaseConfig where
  PushInterval : GoValue := GoValue.nil
  PullInterval : GoValue := GoValue.nil

/-- Route: one rule entry with a polymorphic match value. -/
structure Route where
  Id : Int := 0
  Match : GoValue := GoValue.nil
  Action : String := ""
  ActionValue : String := ""

/-- CommonNode: the shared sub-record embedded in every protocol payload. -/
structure CommonNode where
  Host : String := ""
  ServerPort : Int := 0
  ServerName : String := ""
  Routes : List Route := []
  BaseConfig : Option BaseConfig := none

/-- VMess protocol payload; json.RawMessage fields are modelled as strings. -/
structure VMessNode where
  CommonNode : CommonNode := {}
  Tls : Int := 0
  TlsSettings : TlsSettings := {}
  Network : String := ""
  NetworkSettings : String := ""
  Encryption : String := ""
  EncryptionSettings : EncSettings := {}
  ServerName : String := ""

/-- VLESS protocol payload. -/
structure VlessNode where
  CommonNode : CommonNode := {}
  Tls : Int := 0
  TlsSettings : TlsSettings := {}
  Network : String := ""
  NetworkSettings : String := ""
  Encryption : String := ""
  EncryptionSettings : EncSettings := {}
  ServerName : String := ""
  Flow : String := ""
  RealityConfig : RealityConfig := {}

/-- Shadowsocks protocol payload. -/
structure ShadowsocksNode where
  CommonNode : CommonNode := {}
  Cipher : String := ""
  ServerKey : String := ""
  Obfs : String := ""
  ObfsSettings : String := ""

/-- Trojan protocol payload. -/
structure TrojanNode where
  CommonNode : CommonNode := {}
  Network : String := ""
  NetworkSettings : String := ""

/-- TUIC protocol payload. -/
structure TuicNode where
  CommonNode : CommonNode := {}
  CongestionControl : String := ""
  ZeroRTTHandshake : Bool := false

/-- AnyTLS protocol payload. -/
structure AnyTlsNode where
  CommonNode : CommonNode := {}
  PaddingScheme : List String := []

/-- Hysteria protocol payload. -/
structure HysteriaNode where
  CommonNode : CommonNode := {}
  UpMbps : Int := 0
  DownMbps : Int := 0
  Obfs : String := ""

/-- Hysteria2 protocol payload. -/
structure Hysteria2Node where
  CommonNode : CommonNode := {}
  Ignore_Client_Bandwidth : Bool := false
  UpMbps : Int := 0
  DownMbps : Int := 0
  ObfsType : String := ""
  ObfsPassword : String := ""

/-- One DNSMap entry: the Go code stores a two-key map holding the route
action value under address and the token list under domains. -/
structure DnsEntry where
  address : String
  domains : List String
deriving DecidableEq

/-- RawDNS block: the DNSMap keyed by stringified route index, modelled as an
association list, and the raw DNSJson override bytes modelled as a string. -/
structure RawDNS where
  DNSMap : List (String × DnsEntry) := []
  DNSJson : String := ""

/-- Derived blocking rules. -/
structure Rules where
  Regexp : List String := []
  Protocol : List String := []

/-- NodeInfo: the decoded synchronization result; pointer-valued payload
fields are modelled as options. The Go field named Type is rendered Typ
because Type is reserved in Lean. -/
structure NodeInfo where
  Id : Int := 0
  Typ : String := ""
  Security : Int := 0
  PushInterval : Int := 0
  PullInterval : Int := 0
  RawDNS : RawDNS := {}
  Rules : Rules := {}
  VMess : Option VMessNode := none
  Vless : Option VlessNode := none
  Shadowsocks : Option ShadowsocksNode := none
  Trojan : Option TrojanNode := none
  Tuic : Option TuicNode := none
  AnyTls : Option AnyTlsNode := none
  Hysteria : Option HysteriaNode := none
  Hysteria2 : Option Hysteria2Node := none
  Common : Option CommonNode := none

/-- UserInfo record. -/
structure UserInfo where
  Id : Int := 0
  Uuid : String := ""
  SpeedLimit : Int := 0
  DeviceLimit : Int := 0
deriving DecidableEq

/-- UserListBody record. -/
structure UserListBody where
  Users : List UserInfo := []
deriving DecidableEq

/-- Construct one DNSMap entry value. -/
def dnsEntry (a : String) (d : List String) : DnsEntry :=
  { address := a, domains := d }

/-- Go map assignment on the DNSMap association list: replace the value when
the key is present, otherwise append the binding. -/
def mapSet (m : List (String × DnsEntry)) (k : String) (v : DnsEntry) :
    List (String × DnsEntry) :=
  if m.any (fun p => p.1 = k) then
    m.map (fun p => if p.1 = k then (k, v) else p)
  else m ++ [(k, v)]

/-- One iteration of the block-action loop: a token with the protocol marker
goes to Rules.Protocol stripped, every other token goes to Rules.Regexp with
an optional regexp marker stripped. -/
def blockStep (node : NodeInfo) (v : String) : NodeInfo :=
  if goHasPfx "protocol:" v then
    { node with Rules :=
        { node.Rules with Protocol := node.Rules.Protocol ++ [goTrimPfx "protocol:" v] } }
  else
    { node with Rules :=
        { node.Rules with Regexp := node.Rules.Regexp ++ [goTrimPfx "regexp:" v] } }

/-- Processing of one route at its position in the route list, translated
from the action switch in ProcessCommonNode. -/
def processRoute (i : Nat) (r : Route) (node : NodeInfo) : NodeInfo :=
  let matchs := normalizeMatch r.Match
  if r.Action = "block" then
    matchs.foldl blockStep node
  else if r.Action = "dns" then
    let domains := matchs
    if 0 < matchs.length ∧ matchs.headD "" ≠ "main" then
      let dm := mapSet node.RawDNS.DNSMap (toString i) (dnsEntry r.ActionValue domains)
      { node with RawDNS := { node.RawDNS with DNSMap := dm } }
    else if 1 < matchs.length then
      { node with RawDNS :=
          { node.RawDNS with DNSJson := String.join (matchs.drop 1) } }
    else node
  else node

/-- The indexed loop over the route list. -/
def processRoutesFrom : Nat → List Route → NodeInfo → NodeInfo
  | _, [], node => node
  | i, r :: rs, node => processRoutesFrom (i + 1) rs (processRoute i r node)

/-- The interval assignment guarded by a non-nil BaseConfig. -/
def setIntervals (node : NodeInfo) (bc : Option BaseConfig) : NodeInfo :=
  match bc with
  | some bc =>
    { node with PushInterval := IntervalToTime bc.PushInterval,
                PullInterval := IntervalToTime bc.PullInterval }
  | none => node

/-- ProcessCommonNode: route extraction, interval coercion, then storing the
common record with its route list and base config cleared (the Go code
clears the fields through the shared pointer after assigning it). -/
def ProcessCommonNode (node : NodeInfo) (cm : Option CommonNode) : NodeInfo :=
  match cm with
  | none => node
  | some cm =>
    let node1 := processRoutesFrom 0 cm.Routes node
    let node2 := setIntervals node1 cm.BaseConfig
    { node2 with Common := some { cm with Routes := [], BaseConfig := none } }

/-- The eight protocol handlers registered in the handler map built by New. -/
inductive NodeHandler where
  | shadowsocks
  | vmess
  | vless
  | trojan
  | tuic
  | anytls
  | hysteria
  | hysteria2
deriving DecidableEq

/-- The key under which New registers each handler. -/
def handlerKey : NodeHandler → String
  | NodeHandler.shadowsocks => "shadowsocks"
  | NodeHandler.vmess => "vmess"
  | NodeHandler.vless => "vless"
  | NodeHandler.trojan => "trojan"
  | NodeHandler.tuic => "tuic"
  | NodeHandler.anytls => "anytls"
  | NodeHandler.hysteria => "hysteria"
  | NodeHandler.hysteria2 => "hysteria2"

/-- Lookup in the handler map built at client construction. -/
def handlers (t : String) : Option NodeHandler :=
  if t = "shadowsocks" then some NodeHandler.shadowsocks
  else if t = "vmess" then some NodeHandler.vmess
  else if t = "vless" then some NodeHandler.vless
  else if t = "trojan" then some NodeHandler.trojan
  else if t = "tuic" then some NodeHandler.tuic
  else if t = "anytls" then some NodeHandler.anytls
  else if t = "hysteria" then some NodeHandler.hysteria
  else if t = "hysteria2" then some NodeHandler.hysteria2
  else none

/-- Environment of uninterpreted collaborator functions: the SHA-256 hex hash
of a body and the json.Unmarshal decoders for each payload schema. Bodies
are byte strings. Each decoder either fails with a message or produces the
decoded record, abstracting the JSON layer the claims quantify over. -/
structure Env where
  hash : String → String
  decodeVMess : String → Except String VMessNode
  decodeVless : String → Except String VlessNode
  decodeShadowsocks : String → Except String ShadowsocksNode
  decodeTrojan : String → Except String TrojanNode
  decodeTuic : String → Except String TuicNode
  decodeAnyTls : String → Except String AnyTlsNode
  decodeHysteria : String → Except String HysteriaNode
  decodeHysteria2 : String → Except String Hysteria2Node
  decodeUserList : String → Except String UserListBody

/-- ParseConfig of each handler: decode the body into the matching payload
record, assign it to the matching NodeInfo field, derive the security mode,
and return the embedded CommonNode; a decode failure is wrapped with the
protocol name. Translated case by case from the handler implementations. -/
def ParseConfig (env : Env) (h : NodeHandler) (info : NodeInfo) (data : String) :
    Except String (NodeInfo × CommonNode) :=
  match h with
  | NodeHandler.vmess =>
    match env.decodeVMess data with
    | Except.error e => Except.error ("decode vmess params error: " ++ e)
    | Except.ok n => Except.ok ({ info with VMess := some n, Security := n.Tls }, n.CommonNode)
  | NodeHandler.vless =>
    match env.decodeVless data with
    | Except.error e => Except.error ("decode vless params error: " ++ e)
    | Except.ok n => Except.ok ({ info with Vless := some n, Security := n.Tls }, n.CommonNode)
  | NodeHandler.shadowsocks =>
    match env.decodeShadowsocks data with
    | Except.error e => Except.error ("decode shadowsocks params error: " ++ e)
    | Except.ok n => Except.ok ({ info with Shadowsocks := some n, Security := None }, n.CommonNode)
  | NodeHandler.trojan =>
    match env.decodeTrojan data with
    | Except.error e => Except.error ("decode trojan params error: " ++ e)
    | Except.ok n => Except.ok ({ info with Trojan := some n, Security := Tls }, n.CommonNode)
  | NodeHandler.tuic =>
    match env.decodeTuic data with
    | Except.error e => Except.error ("decode tuic params error: " ++ e)
    | Except.ok n => Except.ok ({ info with Tuic := some n, Security := Tls }, n.CommonNode)
  | NodeHandler.hysteria =>
    match env.decodeHysteria data with
    | Except.error e => Except.error ("decode hysteria params error: " ++ e)
    | Except.ok n => Except.ok ({ info with Hysteria := some n, Security := Tls }, n.CommonNode)
  | NodeHandler.hysteria2 =>
    match env.decodeHysteria2 data with
    | Except.error e => Except.error ("decode hysteria2 params error: " ++ e)
    | Except.ok n => Except.ok ({ info with Hysteria2 := some n, Security := Tls }, n.CommonNode)
  | NodeHandler.anytls =>
    match env.decodeAnyTls data with
    | Except.error e => Except.error ("decode anytls params error: " ++ e)
    | Except.ok n => Except.ok ({ info with AnyTls := some n, Security := Tls }, n.CommonNode)

/-- Construction configuration record. -/
structure Config where
  APIHost : String := ""
  APISendIP : String := ""
  NodeID : Int := 0
  Key : String := ""
  NodeType : String := ""
  Timeout : Int := 0
  Debug : Bool := false

/-- Mutable client state plus the identity fields fixed at construction. -/
structure ClientSt where
  NodeType : String
  NodeId : Int
  nodeEtag : String
  userEtag : String
  responseBodyHash : String
  UserList : Option UserListBody

/-- The node-type normalization performed in New: ASCII case folding and the
historical alias from v2ray to vmess. -/
def normNodeType (s : String) : String :=
  let n := goToLower s
  if n = "v2ray" then "vmess" else n

/-- The recognized node-type strings listed in the switch in New. -/
def supportedTypes : List String :=
  ["vmess", "trojan", "shadowsocks", "hysteria", "hysteria2", "tuic", "anytls", "vless"]

/-- The warnings New logs: exactly one unknown-node-type warning when the
folded type is neither the alias nor a recognized type. -/
def newWarnings (s : String) : List String :=
  let n := goToLower s
  if n = "v2ray" then []
  else if n ∈ supportedTypes then []
  else ["Unknown Node type: " ++ n]

/-- New: build the initial client state (validation tokens and hash empty,
user list pointing at an empty body) together with the warnings logged.
Construction never fails; an unrecognized type only logs a warning. -/
def New (cfg : Config) : ClientSt × List String :=
  ({ NodeType := normNodeType cfg.NodeType,
     NodeId := cfg.NodeID,
     nodeEtag := "",
     userEtag := "",
     responseBodyHash := "",
     UserList := some {} }, newWarnings cfg.NodeType)

/-- Errors a fetch can produce, one constructor per return path. -/
inductive NodeErr where
  | requestFailed (msg : String)
  | statusErr (path : String) (code : Nat) (body : String)
  | nilResponse
  | unsupported (nodeType : String)
  | decodeErr (nodeType : String) (cause : String)
  | userDecodeErr (cause : String)
deriving DecidableEq

/-- An HTTP response as the client sees it: status code, body bytes, whether
the body slice is nil, and the ETag header value. -/
structure Response where
  statusCode : Nat
  body : String
  bodyNil : Bool
  etag : String
deriving DecidableEq

/-- Outcome of the transport call: an error before any response, or a
response. -/
inductive Transport where
  | fail (msg : String)
  | resp (r : Response)

/-- The node-config endpoint path. -/
def apiConfigPath : String := "/api/v1/server/UniProxy/config"

/-- The user-list endpoint path. -/
def apiUserPath : String := "/api/v1/server/UniProxy/user"

/-- checkResponse: wrap a pending transport error, otherwise flag any status
of at least 400 as an error carrying the status code and the body. -/
def checkResponse (r : Response) (path : String) (e : Option String) : Option NodeErr :=
  match e with
  | some m => some (NodeErr.requestFailed ("request " ++ path ++ " failed: " ++ m))
  | none =>
    if 400 ≤ r.statusCode then some (NodeErr.statusErr path r.statusCode r.body)
    else none

/-- The NodeInfo literal allocated in GetNodeInfo before dispatch: id and
type from the client, empty DNS containers, zero values elsewhere. -/
def freshNode (c : ClientSt) : NodeInfo :=
  { Id := c.NodeId, Typ := c.NodeType,
    RawDNS := { DNSMap := [], DNSJson := "" } }

/-- GetNodeInfo of the handler-map tree (part_000) on a received response,
following the source order: the 304 short-circuit, the body-hash comparison
against the stored hash, the commit of the new hash and ETag, the status
check, the nil-body check, the handler lookup with its unsupported-type
error, the decode, and finally the common-record extraction. Returns the
updated state and either an error, none for the no-change sentinel, or the
decoded NodeInfo. The switch-dispatch tree differs only in the dispatch
step and is embedded separately as GetNodeInfoSwitchResp. -/
def GetNodeInfoResp (env : Env) (c : ClientSt) (r : Response) :
    ClientSt × Except NodeErr (Option NodeInfo) :=
  if r.statusCode = 304 then (c, Except.ok none)
  else
    let newBodyHash := env.hash r.body
    if c.responseBodyHash = newBodyHash then (c, Except.ok none)
    else
      let c1 : ClientSt := { c with responseBodyHash := newBodyHash, nodeEtag := r.etag }
      match checkResponse r apiConfigPath none with
      | some e => (c1, Except.error e)
      | none =>
        if r.bodyNil then (c1, Except.error NodeErr.nilResponse)
        else
          match handlers c.NodeType with
          | none => (c1, Except.error (NodeErr.unsupported c.NodeType))
          | some h =>
            match ParseConfig env h (freshNode c) r.body with
            | Except.error e => (c1, Except.error (NodeErr.decodeErr c.NodeType e))
            | Except.ok (node, cm) =>
              (c1, Except.ok (some (ProcessCommonNode node (some cm))))

/-- GetNodeInfo including the transport-failure return path. -/
def GetNodeInfo (env : Env) (c : ClientSt) (t : Transport) :
    ClientSt × Except NodeErr (Option NodeInfo) :=
  match t with
  | Transport.fail msg =>
    (c, Except.error (NodeErr.requestFailed ("request failed: " ++ msg)))
  | Transport.resp r => GetNodeInfoResp env c r

/-- The node-type dispatch of the switch-based GetNodeInfo in pkg/client.go
lines 183 to 247 of the other source tree: one case per recognized type
decoding through the same abstract decoders and deriving the same security
mode, and no default case, so for any other type the payload pointer and
the error keep their zero values and the caller receives the untouched node
with a nil common record and a nil error. The vmess and vless legacy alias
folding of that tree rewrites fields inside an already decoded payload
record and is not modelled; no claim depends on it and the refuting path
never reaches it. -/
def switchParse (env : Env) (t : String) (info : NodeInfo) (data : String) :
    Except String (NodeInfo × Option CommonNode) :=
  if t = "vmess" then
    match env.decodeVMess data with
    | Except.error e => Except.error e
    | Except.ok n =>
      Except.ok ({ info with VMess := some n, Security := n.Tls }, some n.CommonNode)
  else if t = "vless" then
    match env.decodeVless data with
    | Except.error e => Except.error e
    | Except.ok n =>
      Except.ok ({ info with Vless := some n, Security := n.Tls }, some n.CommonNode)
  else if t = "shadowsocks" then
    match env.decodeShadowsocks data with
    | Except.error e => Except.error e
    | Except.ok n =>
      Except.ok ({ info with Shadowsocks := some n, Security := None }, some n.CommonNode)
  else if t = "trojan" then
    match env.decodeTrojan data with
    | Except.error e => Except.error e
    | Except.ok n =>
      Except.ok ({ info with Trojan := some n, Security := Tls }, some n.CommonNode)
  else if t = "tuic" then
    match env.decodeTuic data with
    | Except.error e => Except.error e
    | Except.ok n =>
      Except.ok ({ info with Tuic := some n, Security := Tls }, some n.CommonNode)
  else if t = "anytls" then
    match env.decodeAnyTls data with
    | Except.error e => Except.error e
    | Except.ok n =>
      Except.ok ({ info with AnyTls := some n, Security := Tls }, some n.CommonNode)
  else if t = "hysteria" then
    match env.decodeHysteria data with
    | Except.error e => Except.error e
    | Except.ok n =>
      Except.ok ({ info with Hysteria := some n, Security := Tls }, some n.CommonNode)
  else if t = "hysteria2" then
    match env.decodeHysteria2 data with
    | Except.error e => Except.error e
    | Except.ok n =>
      Except.ok ({ info with Hysteria2 := some n, Security := Tls }, some n.CommonNode)
  else Except.ok (info, none)

/-- GetNodeInfo of the switch-dispatch tree on a received response: identical
prologue (304 short-circuit, body-hash comparison, hash and ETag commit,
status check, nil-body check), then the switch dispatch; the route, DNS and
interval extraction runs only under a non-nil common record, which
ProcessCommonNode already expresses on the none case. -/
def GetNodeInfoSwitchResp (env : Env) (c : ClientSt) (r : Response) :
    ClientSt × Except NodeErr (Option NodeInfo) :=
  if r.statusCode = 304 then (c, Except.ok none)
  else
    let newBodyHash := env.hash r.body
    if c.responseBodyHash = newBodyHash then (c, Except.ok none)
    else
      let c1 : ClientSt := { c with responseBodyHash := newBodyHash, nodeEtag := r.etag }
      match checkResponse r apiConfigPath none with
      | some e => (c1, Except.error e)
      | none =>
        if r.bodyNil then (c1, Except.error NodeErr.nilResponse)
        else
          match switchParse env c.NodeType (freshNode c) r.body with
          | Except.error e => (c1, Except.error (NodeErr.decodeErr c.NodeType e))
          | Except.ok (node, cm) => (c1, Except.ok (some (ProcessCommonNode node cm)))

/-- GetNodeInfo of the switch-dispatch tree including the transport-failure
return path. -/
def GetNodeInfoSwitch (env : Env) (c : ClientSt) (t : Transport) :
    ClientSt × Except NodeErr (Option NodeInfo) :=
  match t with
  | Transport.fail msg =>
    (c, Except.error (NodeErr.requestFailed ("request failed: " ++ msg)))
  | Transport.resp r => GetNodeInfoSwitchResp env c r

/-- GetUserList on a received response: on 304 serve the cached list without
touching state; otherwise check the status, decode, and only after a
successful decode commit the new ETag and cached list. -/
def GetUserListResp (env : Env) (c : ClientSt) (r : Response) :
    ClientSt × Except NodeErr (List UserInfo) :=
  if r.statusCode = 304 then
    match c.UserList with
    | some ul => (c, Except.ok ul.Users)
    | none => (c, Except.ok [])
  else
    match checkResponse r apiUserPath none with
    | some e => (c, Except.error e)
    | none =>
      match env.decodeUserList r.body with
      | Except.error e => (c, Except.error (NodeErr.userDecodeErr ("decode user list error: " ++ e)))
      | Except.ok ul =>
        ({ c with userEtag := r.etag, UserList := some ul }, Except.ok ul.Users)

/-- GetUserList including the transport-failure return path. -/
def GetUserList (env : Env) (c : ClientSt) (t : Transport) :
    ClientSt × Except NodeErr (List UserInfo) :=
  match t with
  | Transport.fail msg =>
    (c, Except.error (NodeErr.requestFailed ("request failed: " ++ msg)))
  | Transport.resp r => GetUserListResp env c r

/-- Claim-side normalization of a match value, written from the words of the
specification for comparison with the source translation: a string splits on
commas, a list of strings is used as is, and in a generic list each string
element is coerced while every non-string element is dropped so that the
result holds no entry for it. -/
def claimNormalizeMatch : GoValue → List String
  | GoValue.str s => goSplitComma s
  | GoValue.strList xs => xs
  | GoValue.list vs =>
    vs.filterMap (fun v =>
      match v with
      | GoValue.str s => some s
      | _ => none)
  | _ => []

/-- Claim-side selector for a block token carrying the protocol marker. -/
def protTok (v : String) : Option String :=
  if goHasPfx "protocol:" v then some (goTrimPfx "protocol:" v) else none

/-- Claim-side selector for a block token without the protocol marker. -/
def regTok (v : String) : Option String :=
  if goHasPfx "protocol:" v then none else some (goTrimPfx "regexp:" v)

/-- The construction-time and payload fields of a NodeInfo that route and
interval processing must leave untouched. -/
def payloadView (n : NodeInfo) :
    String × Option VMessNode × Option VlessNode × Option ShadowsocksNode ×
    Option TrojanNode × Option TuicNode × Option AnyTlsNode ×
    Option HysteriaNode × Option Hysteria2Node :=
  (n.Typ, n.VMess, n.Vless, n.Shadowsocks, n.Trojan, n.Tuic, n.AnyTls,
   n.Hysteria, n.Hysteria2)

/-- The claimed payload invariant: each payload field is populated exactly
when the node type names its protocol. -/
def exactlyOnePayload (n : NodeInfo) (t : String) : Prop :=
  (n.VMess.isSome = true ↔ t = "vmess") ∧
  (n.Vless.isSome = true ↔ t = "vless") ∧
  (n.Shadowsocks.isSome = true ↔ t = "shadowsocks") ∧
  (n.Trojan.isSome = true ↔ t = "trojan") ∧
  (n.Tuic.isSome = true ↔ t = "tuic") ∧
  (n.AnyTls.isSome = true ↔ t = "anytls") ∧
  (n.Hysteria.isSome = true ↔ t = "hysteria") ∧
  (n.Hysteria2.isSome = true ↔ t = "hysteria2")

/- Concrete fixtures for witnesses and counterexamples. -/

/-- A concrete environment whose decoders all succeed with zero values and
whose hash function tags the body. -/
def envW : Env :=
  { hash := fun b => "sha" ++ b,
    decodeVMess := fun _ => Except.ok {},
    decodeVless := fun _ => Except.ok {},
    decodeShadowsocks := fun _ => Except.ok {},
    decodeTrojan := fun _ => Except.ok {},
    decodeTuic := fun _ => Except.ok {},
    decodeAnyTls := fun _ => Except.ok {},
    decodeHysteria := fun _ => Except.ok {},
    decodeHysteria2 := fun _ => Except.ok {},
    decodeUserList := fun _ => Except.ok {} }

/-- A concrete environment whose vmess and user-list decoders fail. -/
def envFail : Env :=
  { envW with
    decodeVMess := fun _ => Except.error "boom",
    decodeUserList := fun _ => Except.error "badjson" }

/-- A vmess client state as New initializes it. -/
def cV : ClientSt :=
  { NodeType := "vmess", NodeId := 1, nodeEtag := "", userEtag := "",
    responseBodyHash := "", UserList := some {} }

/-- The vmess client state after it has cached the hash of the body oops. -/
def cH : ClientSt := { cV with responseBodyHash := envW.hash "oops" }

/-- A 500 response whose body matches the hash cached in cH. -/
def r500 : Response := { statusCode := 500, body := "oops", bodyNil := false, etag := "e2" }

/-- A 302 response with a fresh body. -/
def r302 : Response := { statusCode := 302, body := "b", bodyNil := false, etag := "e3" }

/-- A 500 response with a fresh body. -/
def rBad : Response := { statusCode := 500, body := "z", bodyNil := false, etag := "e4" }

/-- A plain 200 response with a fresh body. -/
def rOk : Response := { statusCode := 200, body := "b", bodyNil := false, etag := "E" }

/-- A 304 response. -/
def r304 : Response := { statusCode := 304, body := "", bodyNil := false, etag := "" }

/-- The decoded node the 302 response produces through the succeeding
environment: the vmess payload and the cleared common record attached to the
fresh node. -/
def nodeOut302 : NodeInfo :=
  { freshNode cV with VMess := some {}, Common := some {} }

/-- The block route from the round-trip example in the specification. -/
def routeB : Route :=
  { Id := 0, Match := GoValue.str "protocol:bittorrent,regexp:^evil",
    Action := "block", ActionValue := "" }

/-- The dns route from the map example in the specification. -/
def routeCorp : Route :=
  { Id := 0, Match := GoValue.strList ["corp"], Action := "dns",
    ActionValue := "10.0.0.1" }

/-- A cached user list with one user. -/
def ulW : UserListBody :=
  { Users := [{ Id := 1, Uuid := "test-uuid", SpeedLimit := 0, DeviceLimit := 0 }] }

/-- A client state carrying the cached user list ulW. -/
def cUser : ClientSt := { cV with UserList := some ulW }

/-- The configuration with the unrecognized node type from the spec. -/
def cfgCP : Config := { NodeType := "carrier-pigeon", NodeID := 1 }

/-- The node the succeeding environment decodes for a vmess client from a
fresh body: the zero vmess payload and the cleared common record. -/
def nodeVm : NodeInfo :=
  { freshNode cV with VMess := some {}, Common := some {} }

/- Helper lemmas shared by the claim theorems. -/

theorem blockFold_rules (vs : List String) (n : NodeInfo) :
    ((vs.foldl blockStep n).Rules.Protocol
        = n.Rules.Protocol ++ vs.filterMap protTok) ∧
    ((vs.foldl blockStep n).Rules.Regexp
        = n.Rules.Regexp ++ vs.filterMap regTok) := by
  induction vs generalizing n with
  | nil => simp
  | cons v vs ih =>
    simp only [List.foldl_cons, List.filterMap_cons]
    by_cases h : goHasPfx "protocol:" v = true
    · have hb : blockStep n v = { n with Rules :=
          { n.Rules with Protocol := n.Rules.Protocol ++ [goTrimPfx "protocol:" v] } } := by
        simp [blockStep, h]
      rw [hb]
      obtain ⟨h1, h2⟩ := ih _
      refine ⟨?_, ?_⟩
      · rw [h1]; simp [protTok, h]
      · rw [h2]; simp [regTok, h]
    · have hb : blockStep n v = { n with Rules :=
          { n.Rules with Regexp := n.Rules.Regexp ++ [goTrimPfx "regexp:" v] } } := by
        simp [blockStep, h]
      rw [hb]
      obtain ⟨h1, h2⟩ := ih _
      refine ⟨?_, ?_⟩
      · rw [h1]; simp [protTok, h]
      · rw [h2]; simp [regTok, h]

theorem payloadView_blockStep (n : NodeInfo) (v : String) :
    payloadView (blockStep n v) = payloadView n := by
  unfold blockStep
  split <;> rfl

theorem payloadView_blockFold (vs : List String) (n : NodeInfo) :
    payloadView (vs.foldl blockStep n) = payloadView n := by
  induction vs generalizing n with
  | nil => rfl
  | cons v vs ih => rw [List.foldl_cons, ih, payloadView_blockStep]

theorem payloadView_processRoute (i : Nat) (r : Route) (n : NodeInfo) :
    payloadView (processRoute i r n) = payloadView n := by
  simp only [processRoute]
  split_ifs <;> first | apply payloadView_blockFold | rfl

theorem payloadView_processRoutesFrom (rs : List Route) (i : Nat) (n : NodeInfo) :
    payloadView (processRoutesFrom i rs n) = payloadView n := by
  induction rs generalizing i n with
  | nil => rfl
  | cons r rs ih =>
    rw [processRoutesFrom, ih, payloadView_processRoute]

theorem payloadView_setIntervals (n : NodeInfo) (bc : Option BaseConfig) :
    payloadView (setIntervals n bc) = payloadView n := by
  cases bc <;> rfl

theorem payloadView_pcn (n : NodeInfo) (cm : Option CommonNode) :
    payloadView (ProcessCommonNode n cm) = payloadView n := by
  cases cm with
  | none => rfl
  | some cm =>
    calc payloadView (ProcessCommonNode n (some cm))
        = payloadView (setIntervals (processRoutesFrom 0 cm.Routes n) cm.BaseConfig) := rfl
      _ = payloadView (processRoutesFrom 0 cm.Routes n) := payloadView_setIntervals _ _
      _ = payloadView n := payloadView_processRoutesFrom _ _ _

theorem handlers_key (t : String) (h : NodeHandler) (hh : handlers t = some h) :
    t = handlerKey h := by
  unfold handlers at hh
  split_ifs at hh
  all_goals
    first
      | exact Option.noConfusion hh
      | (injection hh with he; subst he; simp only [handlerKey]; assumption)

theorem handlers_supported (t : String) (h : t ∈ supportedTypes) :
    handlers t ≠ none := by
  simp only [supportedTypes, List.mem_cons, List.not_mem_nil, or_false] at h
  rcases h with rfl | rfl | rfl | rfl | rfl | rfl | rfl | rfl <;> simp [handlers]

theorem switchParse_unknown (env : Env) (t : String) (info : NodeInfo) (data : String)
    (hun : handlers t = none) :
    switchParse env t info data = Except.ok (info, none) := by
  have h1 : ¬ t = "vmess" := fun h => by rw [h] at hun; exact absurd hun (by decide)
  have h2 : ¬ t = "vless" := fun h => by rw [h] at hun; exact absurd hun (by decide)
  have h3 : ¬ t = "shadowsocks" := fun h => by rw [h] at hun; exact absurd hun (by decide)
  have h4 : ¬ t = "trojan" := fun h => by rw [h] at hun; exact absurd hun (by decide)
  have h5 : ¬ t = "tuic" := fun h => by rw [h] at hun; exact absurd hun (by decide)
  have h6 : ¬ t = "anytls" := fun h => by rw [h] at hun; exact absurd hun (by decide)
  have h7 : ¬ t = "hysteria" := fun h => by rw [h] at hun; exact absurd hun (by decide)
  have h8 : ¬ t = "hysteria2" := fun h => by rw [h] at hun; exact absurd hun (by decide)
  simp [switchParse, h1, h2, h3, h4, h5, h6, h7, h8]

theorem ParseConfig_fresh (env : Env) (h : NodeHandler) (c : ClientSt) (data : String)
    (node1 : NodeInfo) (cm : CommonNode)
    (hpc : ParseConfig env h (freshNode c) data = Except.ok (node1, cm)) :
    node1.Typ = c.NodeType ∧ exactlyOnePayload node1 (handlerKey h) := by
  cases h <;>
    · simp only [ParseConfig] at hpc
      split at hpc
      · exact absurd hpc (by simp)
      · simp only [Except.ok.injEq, Prod.mk.injEq] at hpc
        obtain ⟨hn1, hcm⟩ := hpc
        subst hn1
        exact ⟨rfl, by simp [exactlyOnePayload, freshNode, handlerKey]⟩

/-- Claim C3, counterexample: the reflect-based IntervalToTime cited by the
claim panics on nil input and on unsupported shapes such as a bool instead
of returning a zero duration, and even the total type-switch variant does
not return n seconds for every integer n, because the Go duration
multiplication wraps at int64. -/
theorem C3_cex :
    IntervalToTimeReflect GoValue.nil = none ∧
    IntervalToTimeReflect GoValue.nil ≠ some 0 ∧
    IntervalToTimeReflect (GoValue.boolv true) = none ∧
    IntervalToTime (GoValue.int 1000000000000) ≠ 1000000000000 * second ∧
    IntervalToTimeReflect (GoValue.int 1000000000000)
      ≠ some (1000000000000 * second) := by
  refine ⟨rfl, by decide, rfl, by decide, by decide⟩

/-- Claim C3, amended: the type-switch implementation is total and never
panics: an integer yields its value in seconds under wrapping int64
duration arithmetic (exactly n seconds whenever the product fits in int64),
a numeric string yields its Atoi value in seconds with non-numeric strings
coercing to zero, a float yields its truncated value in whole seconds, and
nil or any other unsupported shape yields a zero duration. The reflect
implementation in pkg/model.go agrees on int, string and float inputs but
panics on nil and on every other unsupported modelled shape instead of
yielding zero. -/
theorem C3_amended (n : Int) (s : String) (b : Bool)
    (xs : List String) (vs : List GoValue)
    (hn : -9223372036 ≤ n ∧ n ≤ 9223372036) :
    IntervalToTime (GoValue.int n) = n * second ∧
    IntervalToTimeReflect (GoValue.int n) = some (n * second) ∧
    IntervalToTime (GoValue.str s) = wrap64 (goAtoi s * second) ∧
    IntervalToTime (GoValue.str "45") = 45 * second ∧
    IntervalToTime (GoValue.str "bogus") = 0 ∧
    IntervalToTimeReflect (GoValue.str "45") = some (45 * second) ∧
    IntervalToTimeReflect (GoValue.str "bogus") = some 0 ∧
    IntervalToTime (GoValue.float 60) = 60 * second ∧
    IntervalToTimeReflect (GoValue.float 60) = some (60 * second) ∧
    IntervalToTime GoValue.nil = 0 ∧
    IntervalToTime (GoValue.boolv b) = 0 ∧
    IntervalToTime (GoValue.strList xs) = 0 ∧
    IntervalToTime (GoValue.list vs) = 0 ∧
    IntervalToTimeReflect GoValue.nil = none ∧
    IntervalToTimeReflect (GoValue.boolv b) = none ∧
    IntervalToTimeReflect (GoValue.strList xs) = none ∧
    IntervalToTimeReflect (GoValue.list vs) = none := by
  obtain ⟨hlo, hhi⟩ := hn
  have hw : wrap64 (n * second) = n * second := by
    unfold wrap64 second
    omega
  refine ⟨?_, ?_, rfl, by decide, by decide, by decide, by decide, ?_, ?_,
    rfl, rfl, rfl, rfl, rfl, rfl, rfl, rfl⟩
  · show wrap64 (n * second) = n * second
    exact hw
  · show some (wrap64 (n * second)) = some (n * second)
    rw [hw]
  · show wrap64 (ratTrunc 60 * second) = 60 * second
    norm_num [ratTrunc, second, wrap64]
  · show some (wrap64 (ratTrunc 60 * second)) = some (60 * second)
    norm_num [ratTrunc, second, wrap64]

/-- Claim C3, amended witness: the spec example inputs at the in-range
integer 30. -/
theorem C3_amended_witness :
    IntervalToTime (GoValue.int 30) = 30 * second ∧
    IntervalToTimeReflect (GoValue.int 30) = some (30 * second) ∧
    IntervalToTimeReflect GoValue.nil = none := by
  have h := C3_amended 30 "45" true [] [] (by decide)
  exact ⟨h.1, h.2.1, h.2.2.2.2.2.2.2.2.2.2.2.2.2.1⟩

/-- Claim C4, counterexample: in a generic match list the source keeps a
zero-value entry for each non-string element instead of dropping it, so the
normalized sequence of a list holding the number 42 and the string a is the
two-element sequence with an empty first entry, not the one-element sequence
the claim predicts. -/
theorem C4_cex :
    normalizeMatch (GoValue.list [GoValue.int 42, GoValue.str "a"]) = ["", "a"] ∧
    normalizeMatch (GoValue.list [GoValue.int 42, GoValue.str "a"])
      ≠ claimNormalizeMatch (GoValue.list [GoValue.int 42, GoValue.str "a"]) := by
  decide

/-- Claim C4, amended: a single string splits on commas, a list of strings is
used as is, and any other list maps each element to its string value with
every non-string element replaced by an empty string at its position. -/
theorem C4_amended (s : String) (xs : List String) (vs : List GoValue) :
    normalizeMatch (GoValue.str s) = goSplitComma s ∧
    normalizeMatch (GoValue.strList xs) = xs ∧
    normalizeMatch (GoValue.list vs) = vs.map goValToStr :=
  ⟨rfl, rfl, rfl⟩

/-- Claim C6: for a route whose action is block, every normalized token with
the protocol marker is appended to Rules.Protocol with the marker stripped,
and every other token is appended to Rules.Regexp with an optional regexp
marker stripped. -/
theorem C6_block_rules (i : Nat) (r : Route) (n : NodeInfo)
    (hact : r.Action = "block") :
    ((processRoute i r n).Rules.Protocol
        = n.Rules.Protocol ++ (normalizeMatch r.Match).filterMap protTok) ∧
    ((processRoute i r n).Rules.Regexp
        = n.Rules.Regexp ++ (normalizeMatch r.Match).filterMap regTok) := by
  have hpr : processRoute i r n = (normalizeMatch r.Match).foldl blockStep n := by
    simp [processRoute, hact]
  rw [hpr]
  exact blockFold_rules _ _

/-- Claim C6, witness: the round-trip example from the specification, the
block route with match protocol:bittorrent,regexp:^evil. -/
theorem C6_witness :
    (processRoute 0 routeB (freshNode cV)).Rules.Protocol = ["bittorrent"] ∧
    (processRoute 0 routeB (freshNode cV)).Rules.Regexp = ["^evil"] := by
  obtain ⟨h1, h2⟩ := C6_block_rules 0 routeB (freshNode cV) rfl
  exact ⟨h1.trans (by decide), h2.trans (by decide)⟩

/-- Claim C7: for a route whose action is dns, a non-empty token list whose
first token is not main records a DNSMap entry keyed by the stringified
route position holding the action value and all tokens; otherwise at least
two tokens set DNSJson to the separator-free concatenation of the tokens
after the first; a single main token produces no output; and a route with
any other action produces no output at all. -/
theorem C7_dns (i : Nat) (r : Route) (n : NodeInfo) (hact : r.Action = "dns") :
    (normalizeMatch r.Match ≠ [] → (normalizeMatch r.Match).headD "" ≠ "main" →
      processRoute i r n = { n with RawDNS :=
        { n.RawDNS with
            DNSMap := mapSet n.RawDNS.DNSMap (toString i)
                        (dnsEntry r.ActionValue (normalizeMatch r.Match)) } }) ∧
    ((normalizeMatch r.Match).headD "" = "main" → 2 ≤ (normalizeMatch r.Match).length →
      processRoute i r n = { n with RawDNS :=
        { n.RawDNS with DNSJson := String.join ((normalizeMatch r.Match).drop 1) } }) ∧
    (normalizeMatch r.Match = ["main"] → processRoute i r n = n) ∧
    (∀ r2 : Route, r2.Action ≠ "block" → r2.Action ≠ "dns" →
      processRoute i r2 n = n) := by
  have hnb : ¬ r.Action = "block" := by rw [hact]; decide
  refine ⟨?_, ?_, ?_, ?_⟩
  · intro h1 h2
    have hpos : 0 < (normalizeMatch r.Match).length := List.length_pos.mpr h1
    simp only [processRoute]
    rw [if_neg hnb, if_pos hact, if_pos (And.intro hpos h2)]
  · intro h2 hlen
    have hlt : 1 < (normalizeMatch r.Match).length := hlen
    have hc1 : ¬ (0 < (normalizeMatch r.Match).length ∧
        (normalizeMatch r.Match).headD "" ≠ "main") := fun hc => hc.2 h2
    simp only [processRoute]
    rw [if_neg hnb, if_pos hact, if_neg hc1, if_pos hlt]
  · intro h1
    simp [processRoute, hnb, hact, h1]
  · intro r2 hb hd
    simp [processRoute, hb, hd]

/-- Claim C7, witness: the dns route with the single token corp at position
two records the DNSMap entry from the specification example. -/
theorem C7_witness :
    processRoute 2 routeCorp (freshNode cV) = { freshNode cV with RawDNS :=
      { (freshNode cV).RawDNS with
          DNSMap := mapSet (freshNode cV).RawDNS.DNSMap (toString 2)
                      (dnsEntry "10.0.0.1" ["corp"]) } } := by
  have h := (C7_dns 2 routeCorp (freshNode cV) rfl).1 (by decide) (by decide)
  exact h

/-- Claim C1, counterexample: a 500 response whose body hashes to the cached
body hash is answered with the no-change sentinel instead of an error,
because the hash comparison runs before the status check; and a 302 response
with a fresh body is not an error either, it proceeds to decode and here
returns a decoded node. -/
theorem C1_cex :
    r500.statusCode = 500 ∧
    (GetNodeInfo envW cH (Transport.resp r500)).2 = Except.ok none ∧
    r302.statusCode = 302 ∧
    (GetNodeInfo envW cV (Transport.resp r302)).2 = Except.ok (some nodeVm) := by
  exact ⟨rfl, rfl, rfl, rfl⟩

/-- Claim C1, amended: every transport-level failure yields an error, and a
response with status at least 400 whose body hash differs from the cached
hash yields an error carrying the status code and the body; but a non-304
response whose body hash equals the cached hash is treated as no change
whatever its status, and statuses below 400 other than 304 are not errors. -/
theorem C1_amended (env : Env) (c : ClientSt) (msg : String) (r : Response)
    (h400 : 400 ≤ r.statusCode)
    (hhash : ¬ c.responseBodyHash = env.hash r.body) :
    (GetNodeInfo env c (Transport.fail msg)).2
        = Except.error (NodeErr.requestFailed ("request failed: " ++ msg)) ∧
    (GetNodeInfo env c (Transport.resp r)).2
        = Except.error (NodeErr.statusErr apiConfigPath r.statusCode r.body) := by
  have h304 : ¬ r.statusCode = 304 := by omega
  exact ⟨rfl, by simp [GetNodeInfo, GetNodeInfoResp, h304, hhash, checkResponse, h400]⟩

/-- Claim C1, amended witness: a concrete transport failure and a concrete
500 response with a fresh body both produce errors. -/
theorem C1_amended_witness :
    (GetNodeInfo envW cV (Transport.fail "boom")).2
        = Except.error (NodeErr.requestFailed "request failed: boom") ∧
    (GetNodeInfo envW cV (Transport.resp rBad)).2
        = Except.error (NodeErr.statusErr apiConfigPath 500 "z") := by
  have h := C1_amended envW cV "boom" rBad (by decide) (by decide)
  exact ⟨h.1, h.2⟩

/-- Claim C2, counterexample: the switch-based GetNodeInfo cited by the
claim has no default arm, so for the unrecognized type carrier-pigeon a
changed body is answered with a payload-less NodeInfo and a nil error, the
silent default the claim rules out, instead of an unsupported-node-type
error. -/
theorem C2_cex :
    handlers (New cfgCP).1.NodeType = none ∧
    (New cfgCP).2 = ["Unknown Node type: carrier-pigeon"] ∧
    (GetNodeInfoSwitch envW (New cfgCP).1 (Transport.resp rOk)).2
      = Except.ok (some (freshNode (New cfgCP).1)) ∧
    (freshNode (New cfgCP).1).VMess = none ∧
    (freshNode (New cfgCP).1).Vless = none ∧
    (freshNode (New cfgCP).1).Shadowsocks = none ∧
    (freshNode (New cfgCP).1).Trojan = none ∧
    (freshNode (New cfgCP).1).Tuic = none ∧
    (freshNode (New cfgCP).1).AnyTls = none ∧
    (freshNode (New cfgCP).1).Hysteria = none ∧
    (freshNode (New cfgCP).1).Hysteria2 = none := by
  exact ⟨rfl, rfl, rfl, rfl, rfl, rfl, rfl, rfl, rfl, rfl, rfl⟩

/-- Claim C2, amended: construction with an unrecognized node type succeeds
with only a warning logged in both trees. On a changed body with a passing
status, the handler-map GetNodeInfo fails with the unsupported-node-type
error, while the switch-based GetNodeInfo of pkg/client.go has no default
case and silently returns the payload-less fresh node with no error. -/
theorem C2_amended (cfg : Config) (env : Env) (r : Response)
    (hun : handlers (New cfg).1.NodeType = none)
    (h304 : ¬ r.statusCode = 304)
    (hhash : ¬ (New cfg).1.responseBodyHash = env.hash r.body)
    (hst : r.statusCode < 400)
    (hbn : r.bodyNil = false) :
    (New cfg).2 ≠ [] ∧
    (GetNodeInfo env (New cfg).1 (Transport.resp r)).2 =
      Except.error (NodeErr.unsupported (New cfg).1.NodeType) ∧
    (GetNodeInfoSwitch env (New cfg).1 (Transport.resp r)).2 =
      Except.ok (some (freshNode (New cfg).1)) := by
  refine ⟨?_, ?_, ?_⟩
  · have hun2 : handlers (normNodeType cfg.NodeType) = none := hun
    show newWarnings cfg.NodeType ≠ []
    unfold newWarnings
    by_cases h1 : goToLower cfg.NodeType = "v2ray"
    · exfalso
      have hv : handlers "vmess" = none := by
        simp only [normNodeType, h1, if_pos] at hun2
        exact hun2
      simp [handlers] at hv
    · rw [if_neg h1]
      by_cases h2 : goToLower cfg.NodeType ∈ supportedTypes
      · exfalso
        apply handlers_supported _ h2
        simp only [normNodeType, h1, if_neg, ite_false] at hun2
        exact hun2
      · rw [if_neg h2]
        simp
  · have hle : ¬ 400 ≤ r.statusCode := by omega
    simp [GetNodeInfo, GetNodeInfoResp, h304, hhash, checkResponse, hle, hbn, hun]
  · have hle : ¬ 400 ≤ r.statusCode := by omega
    have hsp := switchParse_unknown env (New cfg).1.NodeType
      (freshNode (New cfg).1) r.body hun
    simp [GetNodeInfoSwitch, GetNodeInfoSwitchResp, h304, hhash, checkResponse,
      hle, hbn, hsp, ProcessCommonNode]

/-- Claim C2, amended witness: the carrier-pigeon configuration from the
spec, run through both GetNodeInfo variants. -/
theorem C2_amended_witness :
    (New cfgCP).2 ≠ [] ∧
    (GetNodeInfo envW (New cfgCP).1 (Transport.resp rOk)).2 =
      Except.error (NodeErr.unsupported (New cfgCP).1.NodeType) ∧
    (GetNodeInfoSwitch envW (New cfgCP).1 (Transport.resp rOk)).2 =
      Except.ok (some (freshNode (New cfgCP).1)) :=
  C2_amended cfgCP envW rOk (by decide) (by decide) (by decide)
    (by decide) rfl

/-- Claim C8: on a genuinely changed body that passes the status and body
checks, the new body hash and the response ETag are committed to the client
state before the decode runs, so a decode failure still returns the decode
error naming the protocol while the cache holds the fetched-body hash and
the fetched ETag. -/
theorem C8_cache_before_decode (env : Env) (c : ClientSt) (r : Response)
    (h : NodeHandler) (msg : String)
    (h304 : ¬ r.statusCode = 304)
    (hhash : ¬ c.responseBodyHash = env.hash r.body)
    (hst : r.statusCode < 400)
    (hbn : r.bodyNil = false)
    (hh : handlers c.NodeType = some h)
    (hpc : ParseConfig env h (freshNode c) r.body = Except.error msg) :
    (GetNodeInfo env c (Transport.resp r)).1.responseBodyHash = env.hash r.body ∧
    (GetNodeInfo env c (Transport.resp r)).1.nodeEtag = r.etag ∧
    (GetNodeInfo env c (Transport.resp r)).2 =
      Except.error (NodeErr.decodeErr c.NodeType msg) := by
  have hle : ¬ 400 ≤ r.statusCode := by omega
  simp [GetNodeInfo, GetNodeInfoResp, h304, hhash, checkResponse, hle, hbn, hh, hpc]

/-- Claim C8, witness: the failing vmess decoder environment on a fresh 200
response leaves the committed hash and ETag in place next to the error. -/
theorem C8_witness :
    (GetNodeInfo envFail cV (Transport.resp rOk)).1.responseBodyHash
        = envFail.hash rOk.body ∧
    (GetNodeInfo envFail cV (Transport.resp rOk)).1.nodeEtag = rOk.etag ∧
    (GetNodeInfo envFail cV (Transport.resp rOk)).2 =
      Except.error (NodeErr.decodeErr cV.NodeType "decode vmess params error: boom") :=
  C8_cache_before_decode envFail cV rOk NodeHandler.vmess
    "decode vmess params error: boom" (by decide) (by decide) (by decide)
    rfl rfl rfl

/-- Claim C9: a 304 on the user-list endpoint returns the cached decoded
user list with no error and leaves the whole client state, in particular the
user validation token and the cached list, unchanged. -/
theorem C9_userlist_304 (env : Env) (c : ClientSt) (r : Response)
    (ul : UserListBody)
    (h304 : r.statusCode = 304)
    (hul : c.UserList = some ul) :
    GetUserList env c (Transport.resp r) = (c, Except.ok ul.Users) := by
  simp [GetUserList, GetUserListResp, h304, hul]

/-- Claim C9, witness: a client caching one user answers a 304 with that
user and an unchanged state. -/
theorem C9_witness :
    GetUserList envW cUser (Transport.resp r304) = (cUser, Except.ok ulW.Users) :=
  C9_userlist_304 envW cUser r304 ulW rfl rfl

/-- Claim C10: a user-list body that fails to decode produces a decode error
and leaves the client state, in particular the user validation token and the
cached user list, exactly as before the call. -/
theorem C10_userlist_decode_atomic (env : Env) (c : ClientSt) (r : Response)
    (msg : String)
    (h304 : ¬ r.statusCode = 304)
    (hst : r.statusCode < 400)
    (hdec : env.decodeUserList r.body = Except.error msg) :
    GetUserList env c (Transport.resp r) =
      (c, Except.error (NodeErr.userDecodeErr ("decode user list error: " ++ msg))) := by
  have hle : ¬ 400 ≤ r.statusCode := by omega
  simp [GetUserList, GetUserListResp, h304, checkResponse, hle, hdec]

/-- Claim C10, witness: the failing user-list decoder on a 200 response
returns the decode error with the state untouched. -/
theorem C10_witness :
    GetUserList envFail cUser (Transport.resp rOk) =
      (cUser, Except.error (NodeErr.userDecodeErr "decode user list error: badjson")) :=
  C10_userlist_decode_atomic envFail cUser rOk "badjson" (by decide) (by decide) rfl

/-- Claim C5: whenever the configured node type has a registered handler and
GetNodeInfo returns a decoded node, that node carries the client node type
fixed at construction and exactly the one payload field matching it, all
other payload fields remaining empty. -/
theorem C5_one_payload (env : Env) (c : ClientSt) (r : Response)
    (h : NodeHandler) (node : NodeInfo)
    (hh : handlers c.NodeType = some h)
    (hres : (GetNodeInfo env c (Transport.resp r)).2 = Except.ok (some node)) :
    node.Typ = c.NodeType ∧ exactlyOnePayload node c.NodeType := by
  have hkey := handlers_key _ _ hh
  simp only [GetNodeInfo, GetNodeInfoResp] at hres
  split at hres
  · exact absurd hres (by simp)
  · split at hres
    · exact absurd hres (by simp)
    · split at hres
      · exact absurd hres (by simp)
      · split at hres
        · exact absurd hres (by simp)
        · split at hres
          · exact absurd hres (by simp)
          · rename_i h2 hh2
            split at hres
            · exact absurd hres (by simp)
            · rename_i node1 cm hpc
              rw [hh] at hh2
              injection hh2 with hhe
              subst hhe
              simp only [Except.ok.injEq, Option.some.injEq] at hres
              obtain ⟨hT1, hp⟩ := ParseConfig_fresh env h c r.body node1 cm hpc
              have hfields := payloadView_pcn node1 (some cm)
              simp only [payloadView, Prod.mk.injEq] at hfields
              obtain ⟨hT, hv1, hv2, hv3, hv4, hv5, hv6, hv7, hv8⟩ := hfields
              subst hres
              rw [hkey]
              constructor
              · rw [hT, hT1, hkey]
              · unfold exactlyOnePayload at hp ⊢
                rw [hv1, hv2, hv3, hv4, hv5, hv6, hv7, hv8]
                exact hp

/-- Claim C5, witness: the vmess client with the succeeding environment
returns the node holding exactly the vmess payload. -/
theorem C5_witness :
    nodeVm.Typ = cV.NodeType ∧ exactlyOnePayload nodeVm cV.NodeType :=
  C5_one_payload envW cV rOk NodeHandler.vmess nodeVm rfl rfl

end UniProxy
